import Mathlib

/-! Geoclue gsmloc provider: cell identity and position synthesis.

A shallow embedding of `src/providers/gsmloc/geoclue-gsmloc.c`
(`geoclue_gsmloc_get_cell`, `geoclue_gsmloc_get_position`) and of the library
calls these two functions make (glib, gammu, the geoclue web-service helper),
followed by the properties proved about them.

Conventions.
* A C string is the list of its characters up to the terminating NUL.
* A `char *` that may be `NULL` is an `Option CString`.
* `int` is a 32-bit two's-complement integer: arithmetic is done in `Int` and
  wrapped by `wrap32` after every operation that can overflow.
* A library call whose result the program cannot predict (modem, HTTP) takes
  its outcome from a record of outcomes, so that every theorem quantifies over
  all outcomes.
-/

namespace Gsmloc

/-! ## C integers -/

/-- A C string: the characters before the terminating NUL. -/
abbrev CString := List Char

/-- Reduction of a mathematical integer to the 32-bit two's-complement `int`
that holds it (the value an x86 `int` has after the operation wraps). -/
def wrap32 (z : Int) : Int := (z + 2 ^ 31) % 2 ^ 32 - 2 ^ 31

/-- The C expression `v << shift` on `int`, as the compiled program computes
it: the shift count is taken modulo 32 and the bits of `v` are moved left by
that many places, kept to 32 bits. (C itself defines the result only for
`shift < 32` and a result that fits.) -/
def shl32 (v : Int) (shift : Nat) : Int := wrap32 (v * 2 ^ (shift % 32))

/-! ## glib -/

/-- The glib function `g_ascii_digit_value`: the value of a decimal digit,
`-1` for any other character. -/
def g_ascii_digit_value (c : Char) : Int :=
  if '0'.toNat ≤ c.toNat ∧ c.toNat ≤ '9'.toNat then (c.toNat : Int) - '0'.toNat else -1

/-- The glib function `g_ascii_xdigit_value`: the value of a hexadecimal digit
of either case, `-1` for any other character. -/
def g_ascii_xdigit_value (c : Char) : Int :=
  if 'A'.toNat ≤ c.toNat ∧ c.toNat ≤ 'F'.toNat then (c.toNat : Int) - 'A'.toNat + 10
  else if 'a'.toNat ≤ c.toNat ∧ c.toNat ≤ 'f'.toNat then (c.toNat : Int) - 'a'.toNat + 10
  else g_ascii_digit_value c

/-- The C library function `strstr`: the first occurrence of `needle` in the
string, returned as the text before it and the text from it on; `none` when
there is no occurrence. -/
def strstr (needle : CString) : CString → Option (CString × CString)
  | [] => if needle.isPrefixOf [] then some ([], []) else none
  | c :: t =>
    if needle.isPrefixOf (c :: t) then some ([], c :: t)
    else (strstr needle t).map fun r => (c :: r.1, r.2)

/-- The value of `G_MAXINT`. -/
def G_MAXINT : Nat := 2147483647

/-- The loop of `g_strsplit`, `while (--max_tokens && s)`: the first argument
is `max_tokens` on entry to the test (at least 1 there), the second is
`remainder`. Returns the tokens cut off and the final `remainder`. -/
def g_strsplit_loop (delimiter : CString) : Nat → CString → List CString × CString
  | 0, remainder => ([], remainder)
  | 1, remainder => ([], remainder)
  | m + 2, remainder =>
    match strstr delimiter remainder with
    | none => ([], remainder)
    | some (tok, s) =>
      let r := g_strsplit_loop delimiter (m + 1) (s.drop delimiter.length)
      (tok :: r.1, r.2)

/-- The glib function `g_strsplit (string, delimiter, max_tokens)`: the list
of tokens (the C result is this list followed by a `NULL`). At most
`max_tokens` pieces are produced, the last one holding the whole remainder;
the empty string gives no token at all. The delimiter is not empty (glib
rejects an empty one). -/
def g_strsplit (string delimiter : CString) (max_tokens : Int) : List CString :=
  let m : Nat := if max_tokens < 1 then G_MAXINT else max_tokens.toNat
  let r := g_strsplit_loop delimiter m string
  r.1 ++ (if string ≠ [] then [r.2] else [])

/-- The conversion `%d` of `printf`: the decimal digits of an `int`, with a
leading minus sign when it is negative. -/
def printf_d (i : Int) : CString :=
  if i < 0 then '-' :: Nat.toDigits 10 i.natAbs else Nat.toDigits 10 i.toNat

/-! ## The LAC/CID conversion of `geoclue_gsmloc_get_cell` -/

/-- Lines 167-172 (and 174-179): the loop
`for (i = 0; i < str_len; i++) { shift = (str_len - i - 1) * 4;
   acc += g_ascii_xdigit_value (s[i]) << shift; }` started from `acc = 0`. -/
def hex_to_int (s : CString) : Int :=
  (List.range s.length).foldl
    (fun acc i =>
      let shift := (s.length - i - 1) * 4
      wrap32 (acc + shl32 (g_ascii_xdigit_value (s.getD i '\x00')) shift))
    0

/-- The standard base-16 value of a string of hexadecimal digits, most
significant digit first, as the specification words it: accumulate
`value = value * 16 + digit` over the characters from left to right. -/
def spec_hexToDecimal (s : CString) : Nat :=
  s.foldl (fun value c => value * 16 + (g_ascii_xdigit_value c).toNat) 0

/-- A character is a hexadecimal digit when it is one of `0-9`, `a-f`, `A-F`. -/
def isHexDigit (c : Char) : Bool :=
  ('0'.toNat ≤ c.toNat && c.toNat ≤ '9'.toNat) ||
  ('a'.toNat ≤ c.toNat && c.toNat ≤ 'f'.toNat) ||
  ('A'.toNat ≤ c.toNat && c.toNat ≤ 'F'.toNat)

/-! ## gammu -/

/-- The gammu type `GSM_Error`, an error code. -/
abbrev GSM_Error := Nat

/-- The gammu code `ERR_NONE` (the first enumerator, numbered from 1). -/
def ERR_NONE : GSM_Error := 1

/-- The gammu structure `GSM_NetworkInfo`, restricted to the three members the
provider reads. -/
structure GSM_NetworkInfo where
  NetworkCode : CString
  LAC : CString
  CID : CString
deriving DecidableEq, Repr

/-- The gammu functions the provider calls. -/
inductive GammuCall where
  | AllocStateMachine
  | FindGammuRC
  | ReadConfig
  | SetConfigNum
  | InitConnection
  | IsConnected
  | GetNetworkInfo
  | TerminateConnection
deriving DecidableEq, Repr

/-- The outcomes of the gammu calls of one run: what each call returns when
the provider makes it. Every member is free, so a statement for all `Gammu`
is a statement for every behaviour of the modem and of its configuration. -/
structure Gammu where
  /-- `GSM_AllocStateMachine` returns a non-NULL state machine. -/
  alloc : Bool
  /-- The code returned by `GSM_FindGammuRC`. -/
  findGammuRC : GSM_Error
  /-- The result of `GSM_ReadConfig`. -/
  readConfig : Bool
  /-- The code returned by `GSM_InitConnection`. -/
  initConnection : GSM_Error
  /-- Whether a failed `GSM_InitConnection` leaves the connection open. -/
  initLeavesOpen : Bool
  /-- The code returned by `GSM_GetNetworkInfo`. -/
  getNetworkInfo : GSM_Error
  /-- The structure filled in by `GSM_GetNetworkInfo`. -/
  netinfo : GSM_NetworkInfo
  /-- The code returned by `GSM_TerminateConnection` on an open connection. -/
  terminate : GSM_Error
deriving DecidableEq, Repr

/-- The part of the gammu state machine the provider can observe: whether
the connection to the modem is open (the library's `opened` flag, which
`GSM_IsConnected` reports), and the calls made so far, oldest first, each
with the state of the connection when the call returned. -/
structure Modem where
  opened : Bool
  log : List (GammuCall × Bool)
deriving DecidableEq, Repr

/-- Record a call that leaves the connection as it is. -/
def Modem.call (m : Modem) (c : GammuCall) : Modem :=
  { m with log := m.log ++ [(c, m.opened)] }

/-- The calls of a log, without the connection states. -/
def calls (log : List (GammuCall × Bool)) : List GammuCall := log.map Prod.fst

/-- The connection was open at some point of the log. -/
def everConnected (log : List (GammuCall × Bool)) : Bool := log.any Prod.snd

/-- The gammu function `GSM_InitConnection`: the connection is open after a
success; after a failure the library may or may not have left it open. -/
def GSM_InitConnection (g : Gammu) (m : Modem) : GSM_Error × Modem :=
  let opened := if g.initConnection = ERR_NONE then true else g.initLeavesOpen
  (g.initConnection,
   { opened := opened, log := m.log ++ [(GammuCall.InitConnection, opened)] })

/-- The gammu function `GSM_IsConnected`. -/
def GSM_IsConnected (m : Modem) : Bool × Modem :=
  (m.opened, m.call GammuCall.IsConnected)

/-- The gammu function `GSM_GetNetworkInfo`: a query, which leaves the
connection as it is. -/
def GSM_GetNetworkInfo (g : Gammu) (m : Modem) : GSM_Error × GSM_NetworkInfo × Modem :=
  (g.getNetworkInfo, g.netinfo, m.call GammuCall.GetNetworkInfo)

/-- The gammu function `GSM_TerminateConnection`: nothing to do on a closed
connection; on an open one the connection is closed when the call succeeds
and stays open when it fails. -/
def GSM_TerminateConnection (g : Gammu) (m : Modem) : GSM_Error × Modem :=
  if m.opened then
    let opened := decide (g.terminate ≠ ERR_NONE)
    (g.terminate,
     { opened := opened, log := m.log ++ [(GammuCall.TerminateConnection, opened)] })
  else (ERR_NONE, m.call GammuCall.TerminateConnection)

/-! ## `geoclue_gsmloc_get_cell` -/

/-- The four `char **` outputs of `geoclue_gsmloc_get_cell`: the strings the
caller's variables point to, `none` for `NULL`. -/
structure CellOut where
  mcc : Option CString
  mnc : Option CString
  lac : Option CString
  cid : Option CString
deriving DecidableEq, Repr

/-- The statement `if (GSM_IsConnected (state)) GSM_TerminateConnection (state);`
of the three failure paths. -/
def terminate_if_connected (g : Gammu) (m : Modem) : Modem :=
  let r := GSM_IsConnected m
  if r.1 then (GSM_TerminateConnection g r.2).2 else r.2

/-- Lines 166-193 of `geoclue_gsmloc_get_cell`: the conversion of `netinfo`
into the four outputs. `out` is what the outputs hold on entry. -/
def get_cell_normalize (netinfo : GSM_NetworkInfo) (out : CellOut) : Bool × CellOut :=
  let i_lac := hex_to_int netinfo.LAC
  let i_cid := hex_to_int netinfo.CID
  let strings := g_strsplit netinfo.NetworkCode [' '] 2
  match strings.get? 0, strings.get? 1 with
  | some s0, some s1 =>
    (true, { mcc := some s0, mnc := some s1,
             lac := some (printf_d i_lac), cid := some (printf_d i_cid) })
  | _, _ => (false, out)

/-- The function `geoclue_gsmloc_get_cell`: its return value, the outputs
(`out` on entry) and the modem state with the log of gammu calls when it
returns. The state machine is fresh: closed, nothing called. -/
def geoclue_gsmloc_get_cell (g : Gammu) (out : CellOut) : Bool × CellOut × Modem :=
  let m : Modem := { opened := false, log := [(GammuCall.AllocStateMachine, false)] }
  if !g.alloc then (false, out, m)
  else
    let m := m.call GammuCall.FindGammuRC
    if g.findGammuRC ≠ ERR_NONE then (false, out, terminate_if_connected g m)
    else
      let m := m.call GammuCall.ReadConfig
      if !g.readConfig then (false, out, m)
      else
        let m := m.call GammuCall.SetConfigNum
        let r := GSM_InitConnection g m
        if r.1 ≠ ERR_NONE then (false, out, terminate_if_connected g r.2)
        else
          let q := GSM_GetNetworkInfo g r.2
          if q.1 ≠ ERR_NONE then (false, out, terminate_if_connected g q.2.2)
          else
            let t := GSM_TerminateConnection g q.2.2
            let n := get_cell_normalize q.2.1 out
            (n.1, n.2, t.2)

/-- Every gammu call of the run succeeds. -/
def Gammu.allOk (g : Gammu) : Prop :=
  g.alloc = true ∧ g.findGammuRC = ERR_NONE ∧ g.readConfig = true ∧
  g.initConnection = ERR_NONE ∧ g.getNetworkInfo = ERR_NONE

instance (g : Gammu) : Decidable g.allOk := by unfold Gammu.allOk; infer_instance

/-- A modem on which every call succeeds and which reports `netinfo`. -/
def Gammu.reporting (netinfo : GSM_NetworkInfo) : Gammu :=
  { alloc := true, findGammuRC := ERR_NONE, readConfig := true,
    initConnection := ERR_NONE, initLeavesOpen := false,
    getNetworkInfo := ERR_NONE, netinfo := netinfo, terminate := ERR_NONE }

/-- The outputs as `geoclue_gsmloc_get_position` initialises them: all `NULL`. -/
def CellOut.null : CellOut := { mcc := none, mnc := none, lac := none, cid := none }

/-! ## geoclue types and the web-service helper -/

/-- Modelled from the spec: the enumeration `GeoclueError` of
`geoclue/geoclue-error.h`, which is not among the sources; the position
provider uses `GEOCLUE_ERROR_NOT_AVAILABLE` only. -/
inductive GeoclueError where
  | GEOCLUE_ERROR_NOT_IMPLEMENTED
  | GEOCLUE_ERROR_NOT_AVAILABLE
  | GEOCLUE_ERROR_FAILED
deriving DecidableEq, Repr

/-- A glib `GError` of the domain `GEOCLUE_ERROR`, the only domain the provider
uses: a code and a message. -/
structure GError where
  code : GeoclueError
  message : String
deriving DecidableEq, Repr

/-- Modelled from the spec: the enumeration `GeoclueAccuracyLevel` of
`geoclue/geoclue-types.h`, which is not among the sources; an ordered
enumeration that starts `None < ... < PostalCode < ...`. -/
inductive GeoclueAccuracyLevel where
  | GEOCLUE_ACCURACY_LEVEL_NONE
  | GEOCLUE_ACCURACY_LEVEL_COUNTRY
  | GEOCLUE_ACCURACY_LEVEL_REGION
  | GEOCLUE_ACCURACY_LEVEL_LOCALITY
  | GEOCLUE_ACCURACY_LEVEL_POSTALCODE
  | GEOCLUE_ACCURACY_LEVEL_STREET
  | GEOCLUE_ACCURACY_LEVEL_DETAILED
deriving DecidableEq, Repr

/-- The value built by `geoclue_accuracy_new (level, horizontal, vertical)`. -/
structure GeoclueAccuracy where
  level : GeoclueAccuracyLevel
  horizontal_accuracy : Nat
  vertical_accuracy : Nat
deriving DecidableEq, Repr

/-- The function `geoclue_accuracy_new`. -/
def geoclue_accuracy_new (level : GeoclueAccuracyLevel) (h v : Nat) : GeoclueAccuracy :=
  { level := level, horizontal_accuracy := h, vertical_accuracy := v }

/-- Modelled from the spec: the bit set `GeocluePositionFields` of
`geoclue/geoclue-types.h`, which is not among the sources: a set of flags,
one bit for each of latitude, longitude and altitude, empty when no bit is
set. -/
abbrev GeocluePositionFields := Nat

/-- Modelled from the spec: the empty set of fields of
`geoclue/geoclue-types.h`. -/
def GEOCLUE_POSITION_FIELDS_NONE : GeocluePositionFields := 0

/-- Modelled from the spec: the latitude flag of `geoclue/geoclue-types.h`,
`1 << 0`. -/
def GEOCLUE_POSITION_FIELDS_LATITUDE : GeocluePositionFields := 1 <<< 0

/-- Modelled from the spec: the longitude flag of `geoclue/geoclue-types.h`,
`1 << 1`. -/
def GEOCLUE_POSITION_FIELDS_LONGITUDE : GeocluePositionFields := 1 <<< 1

/-- Modelled from the spec: the altitude flag of `geoclue/geoclue-types.h`,
`1 << 2`. -/
def GEOCLUE_POSITION_FIELDS_ALTITUDE : GeocluePositionFields := 1 <<< 2

/-- Whether a flag is set in a set of fields (`fields & flag` is not zero). -/
def hasField (fields flag : GeocluePositionFields) : Bool := (fields &&& flag) != 0

/-- The state of the web service after `gc_web_service_query`, a function of
`geoclue/gc-web-service.c` that is not among the sources and whose outcome is
therefore a parameter: whether the query succeeded, the error it stored in
`*error` if it stored one, and, for each XPath expression, the number
`gc_web_service_get_double` reads from the response (`none` when the
expression selects nothing). `D` is the type of C `double` values, which the
provider only copies. -/
structure WebResponse (D : Type) where
  ok : Bool
  error : Option GError
  get_double : String → Option D

/-- The web service of `geoclue/gc-web-service.c` as the provider sees it: the
response to the query with parameters `mcc`, `mnc`, `lac`, `cellid`. -/
abbrev GcWebService (D : Type) := CString → CString → CString → CString → WebResponse D

/-- Which of the optional output pointers of `geoclue_gsmloc_get_position`
are non-NULL. -/
structure PositionArgs where
  timestamp : Bool
  latitude : Bool
  longitude : Bool
  accuracy : Bool
deriving DecidableEq, Repr

/-- The memory the output pointers of `geoclue_gsmloc_get_position` point to. -/
structure PositionOut (D : Type) where
  fields : GeocluePositionFields
  timestamp : Int
  latitude : D
  longitude : D
  altitude : D
  accuracy : Option GeoclueAccuracy
  error : Option GError

/-- The call `ptr && gc_web_service_get_double (web_service, ptr, xpath)`:
the number read, when the pointer is non-NULL and the read succeeds. -/
def extract {D : Type} (ptr : Bool) (r : WebResponse D) (xpath : String) : Option D :=
  if ptr then r.get_double xpath else none

/-- The extraction made for the latitude output (lines 241-242). -/
def extract_latitude {D : Type} (a : PositionArgs) (r : WebResponse D) : Option D :=
  extract a.latitude r "/rsp/cell/attribute::lat"

/-- The extraction made for the longitude output (lines 245-246). -/
def extract_longitude {D : Type} (a : PositionArgs) (r : WebResponse D) : Option D :=
  extract a.longitude r "/rsp/cell/attribute::lat"

/-- Lines 241-261 of `geoclue_gsmloc_get_position`: the outputs after a
successful query. -/
def synthesize {D : Type} (a : PositionArgs) (r : WebResponse D) (out : PositionOut D) :
    PositionOut D :=
  let out :=
    match extract_latitude a r with
    | some v => { out with latitude := v,
                           fields := out.fields ||| GEOCLUE_POSITION_FIELDS_LATITUDE }
    | none => out
  let out :=
    match extract_longitude a r with
    | some v => { out with longitude := v,
                           fields := out.fields ||| GEOCLUE_POSITION_FIELDS_LONGITUDE }
    | none => out
  if a.accuracy then
    if out.fields = GEOCLUE_POSITION_FIELDS_NONE then
      let acc := geoclue_accuracy_new GeoclueAccuracyLevel.GEOCLUE_ACCURACY_LEVEL_NONE 0 0
      { out with accuracy := some acc }
    else
      let acc := geoclue_accuracy_new GeoclueAccuracyLevel.GEOCLUE_ACCURACY_LEVEL_POSTALCODE 0 0
      { out with accuracy := some acc }
  else out

/-- The call `gc_web_service_query (web_service, error, "mcc", mcc, "mnc", mnc,
"lac", lac, "cellid", cid, NULL)` with the outputs of
`geoclue_gsmloc_get_cell`. -/
def gc_web_service_query {D : Type} (ws : GcWebService D) (cell : CellOut) : WebResponse D :=
  ws (cell.mcc.getD []) (cell.mnc.getD []) (cell.lac.getD []) (cell.cid.getD [])

/-- The output memory after a failed `gc_web_service_query`: the helper was
handed the caller's `error` pointer; the provider stores nothing itself. -/
def query_failure {D : Type} (r : WebResponse D) (out : PositionOut D) : PositionOut D :=
  { out with error := r.error.orElse fun _ => out.error }

/-- The error `geoclue_gsmloc_get_position` creates at lines 215-216 with
`g_error_new`. -/
def gammu_error : GError :=
  { code := GeoclueError.GEOCLUE_ERROR_NOT_AVAILABLE,
    message := "Failed to get cell data from Gammu" }

/-- The function `geoclue_gsmloc_get_position`: its return value and the
memory behind its output pointers (`out` on entry). `now` is what
`time (NULL)` returns; it is stored in an `int`. -/
def geoclue_gsmloc_get_position {D : Type} (g : Gammu) (ws : GcWebService D) (now : Int)
    (a : PositionArgs) (out : PositionOut D) : Bool × PositionOut D :=
  let cell := geoclue_gsmloc_get_cell g CellOut.null
  if !cell.1 then (false, { out with error := some gammu_error })
  else
    let out := { out with fields := GEOCLUE_POSITION_FIELDS_NONE }
    let out := if a.timestamp then { out with timestamp := wrap32 now } else out
    let r := gc_web_service_query ws cell.2.1
    if !r.ok then (false, query_failure r out)
    else (true, synthesize a r out)

/-- The output memory when the web service is queried: no field set, the
timestamp stored if asked for. -/
def before_query {D : Type} (now : Int) (a : PositionArgs) (out : PositionOut D) :
    PositionOut D :=
  if a.timestamp then
    { out with fields := GEOCLUE_POSITION_FIELDS_NONE, timestamp := wrap32 now }
  else { out with fields := GEOCLUE_POSITION_FIELDS_NONE }

/-! ## Concrete inputs -/

/-- The raw network information of the specification's scenario. -/
def netinfo_246_81 : GSM_NetworkInfo :=
  { NetworkCode := "246 81".toList, LAC := "1A2B".toList, CID := "3F".toList }

/-- A run in which `GSM_AllocStateMachine` returns `NULL`. -/
def Gammu.noStateMachine : Gammu :=
  { Gammu.reporting netinfo_246_81 with alloc := false }

/-- A run in which the modem answers and `GSM_TerminateConnection` fails
(code 2, `ERR_DEVICEOPENERROR`). -/
def Gammu.stuck : Gammu :=
  { Gammu.reporting netinfo_246_81 with terminate := 2 }

/-- All optional output pointers non-NULL. -/
def PositionArgs.all : PositionArgs :=
  { timestamp := true, latitude := true, longitude := true, accuracy := true }

/-- Output memory holding zeroes and `NULL` pointers; doubles are rationals. -/
def PositionOut.blank : PositionOut ℚ :=
  { fields := 0, timestamp := 0, latitude := 0, longitude := 0, altitude := 0,
    accuracy := none, error := none }

/-- A web service whose response has the attribute `lat` with value 45.0 and
no other attribute. -/
def ws_lat_only : GcWebService ℚ := fun _ _ _ _ =>
  { ok := true, error := none,
    get_double := fun xpath => if xpath = "/rsp/cell/attribute::lat" then some 45 else none }

/-- A web service whose response has the attribute `lon` with value 13.0 and
no other attribute. -/
def ws_lon_only : GcWebService ℚ := fun _ _ _ _ =>
  { ok := true, error := none,
    get_double := fun xpath => if xpath = "/rsp/cell/attribute::lon" then some 13 else none }

/-- A web service whose query fails and stores an error of its own. -/
def ws_unreachable : GcWebService ℚ := fun _ _ _ _ =>
  { ok := false,
    error := some { code := GeoclueError.GEOCLUE_ERROR_NOT_AVAILABLE,
                    message := "xmlNanoHTTPMethod did not get a response" },
    get_double := fun _ => none }

/-- The accumulation `value = value * 16 + digit` over all characters, with
the digit value `g_ascii_xdigit_value` gives (`-1` for a character that is no
hexadecimal digit), in unbounded integers. -/
def hexIntValue (s : CString) : Int :=
  s.foldl (fun value c => value * 16 + g_ascii_xdigit_value c) 0

/-! ## Arithmetic of `int` -/

theorem wrap32_wrap32_add (a b : Int) : wrap32 (wrap32 a + wrap32 b) = wrap32 (a + b) := by
  unfold wrap32
  omega

theorem wrap32_of_range (z : Int) (h0 : -(2 ^ 31) ≤ z) (h1 : z < 2 ^ 31) : wrap32 z = z := by
  unfold wrap32
  omega

/-! ## The conversion loop -/

theorem take_succ_getD (s : CString) (k : Nat) (h : k < s.length) :
    s.take (k + 1) = s.take k ++ [s.getD k '\x00'] := by
  rw [List.take_succ]
  simp [List.getD, List.getElem?_eq_getElem h]

/-- After `k` iterations the accumulator holds, reduced to 32 bits, the value
of the first `k` characters moved left by four bits for each remaining one. -/
theorem hex_loop_invariant (s : CString) (h8 : s.length ≤ 8) (k : Nat) (hk : k ≤ s.length) :
    (List.range k).foldl
      (fun acc i =>
        let shift := (s.length - i - 1) * 4
        wrap32 (acc + shl32 (g_ascii_xdigit_value (s.getD i '\x00')) shift))
      0
    = wrap32 (hexIntValue (s.take k) * 16 ^ (s.length - k)) := by
  induction k with
  | zero => simp [hexIntValue, wrap32]
  | succ k ih =>
    have hk1 : k < s.length := hk
    rw [List.range_succ, List.foldl_append, ih (Nat.le_of_lt hk1)]
    simp only [List.foldl_cons, List.foldl_nil, shl32]
    rw [take_succ_getD s k hk1]
    simp only [hexIntValue, List.foldl_append, List.foldl_cons, List.foldl_nil]
    have e1 : s.length - k = (s.length - (k + 1)) + 1 := by omega
    have e2 : s.length - k - 1 = s.length - (k + 1) := by omega
    have e3 : (2 : Int) ^ ((s.length - (k + 1)) * 4 % 32) = 16 ^ (s.length - (k + 1)) := by
      rw [Nat.mod_eq_of_lt (by omega), Nat.mul_comm, pow_mul]; norm_num
    rw [e2, e3, e1, wrap32_wrap32_add]
    congr 1
    ring

/-- On a string of up to 8 characters, where every shift is below 32, the loop
computes the accumulated value reduced to a 32-bit `int`. -/
theorem hex_to_int_eq (s : CString) (h8 : s.length ≤ 8) :
    hex_to_int s = wrap32 (hexIntValue s) := by
  have h := hex_loop_invariant s h8 s.length (Nat.le_refl _)
  simpa [hex_to_int] using h

theorem isHexDigit_value (c : Char) (h : isHexDigit c = true) :
    0 ≤ g_ascii_xdigit_value c ∧ g_ascii_xdigit_value c ≤ 15 := by
  simp only [isHexDigit, Bool.or_eq_true, Bool.and_eq_true, decide_eq_true_eq] at h
  unfold g_ascii_xdigit_value g_ascii_digit_value
  have h0 : '0'.toNat = 48 := rfl
  have h9 : '9'.toNat = 57 := rfl
  have ha : 'a'.toNat = 97 := rfl
  have hf : 'f'.toNat = 102 := rfl
  have hA : 'A'.toNat = 65 := rfl
  have hF : 'F'.toNat = 70 := rfl
  simp only [h0, h9, ha, hf, hA, hF] at h ⊢
  split_ifs <;> omega

theorem hexIntValue_foldl_hex (s : CString) (h : s.all isHexDigit = true) (v : Nat) :
    s.foldl (fun value c => value * 16 + g_ascii_xdigit_value c) (v : Int)
      = ((s.foldl (fun value c => value * 16 + (g_ascii_xdigit_value c).toNat) v : Nat) : Int) := by
  induction s generalizing v with
  | nil => simp
  | cons c t ih =>
    simp only [List.all_cons, Bool.and_eq_true] at h
    simp only [List.foldl_cons]
    have hc := isHexDigit_value c h.1
    have e : (v : Int) * 16 + g_ascii_xdigit_value c
        = ((v * 16 + (g_ascii_xdigit_value c).toNat : Nat) : Int) := by
      push_cast
      rw [Int.toNat_of_nonneg hc.1]
    rw [e, ih h.2]

/-- On a string of hexadecimal digits the accumulated value is the standard
base-16 value. -/
theorem hexIntValue_eq_spec (s : CString) (h : s.all isHexDigit = true) :
    hexIntValue s = (spec_hexToDecimal s : Int) := by
  have := hexIntValue_foldl_hex s h 0
  simpa [hexIntValue, spec_hexToDecimal] using this

theorem spec_foldl_lt (s : CString) (h : s.all isHexDigit = true) (v : Nat) :
    s.foldl (fun value c => value * 16 + (g_ascii_xdigit_value c).toNat) v
      < (v + 1) * 16 ^ s.length := by
  induction s generalizing v with
  | nil => simp
  | cons c t ih =>
    simp only [List.all_cons, Bool.and_eq_true] at h
    simp only [List.foldl_cons, List.length_cons]
    have hc := isHexDigit_value c h.1
    have hd : (g_ascii_xdigit_value c).toNat ≤ 15 := by omega
    have h1 := ih h.2 (v * 16 + (g_ascii_xdigit_value c).toNat)
    have h2 : (v * 16 + (g_ascii_xdigit_value c).toNat + 1) * 16 ^ t.length
        ≤ ((v + 1) * 16) * 16 ^ t.length :=
      Nat.mul_le_mul_right _ (by omega)
    calc _ < (v * 16 + (g_ascii_xdigit_value c).toNat + 1) * 16 ^ t.length := h1
      _ ≤ ((v + 1) * 16) * 16 ^ t.length := h2
      _ = (v + 1) * 16 ^ (t.length + 1) := by ring

/-- A string of `n` hexadecimal digits has a value below `16 ^ n`. -/
theorem spec_hexToDecimal_lt (s : CString) (h : s.all isHexDigit = true) :
    spec_hexToDecimal s < 16 ^ s.length := by
  have := spec_foldl_lt s h 0
  simpa [spec_hexToDecimal] using this

/-- Up to seven hexadecimal digits always give a value below `2 ^ 31`. -/
theorem spec_hexToDecimal_lt_of_length (s : CString) (h : s.all isHexDigit = true)
    (h7 : s.length ≤ 7) : spec_hexToDecimal s < 2 ^ 31 := by
  have h1 := spec_hexToDecimal_lt s h
  have h2 : 16 ^ s.length ≤ 16 ^ 7 := Nat.pow_le_pow_right (by norm_num) h7
  have h3 : (16 : Nat) ^ 7 < 2 ^ 31 := by norm_num
  omega

theorem spec_foldl_ofDigits (s : CString) (v : Nat) :
    s.foldl (fun value c => value * 16 + (g_ascii_xdigit_value c).toNat) v
      = v * 16 ^ s.length
        + Nat.ofDigits 16 (s.reverse.map fun c => (g_ascii_xdigit_value c).toNat) := by
  induction s generalizing v with
  | nil => simp
  | cons c t ih =>
    simp only [List.foldl_cons, List.length_cons, List.reverse_cons, List.map_append,
      List.map_cons, List.map_nil, Nat.ofDigits_append, Nat.ofDigits_singleton,
      List.length_map, List.length_reverse]
    rw [ih]
    ring

/-- The accumulation of the specification is the positional value in base 16
of the digits, the last character being the least significant. -/
theorem spec_hexToDecimal_eq_ofDigits (s : CString) :
    spec_hexToDecimal s
      = Nat.ofDigits 16 (s.reverse.map fun c => (g_ascii_xdigit_value c).toNat) := by
  have := spec_foldl_ofDigits s 0
  simpa [spec_hexToDecimal] using this

/-! ## `printf ("%d")` -/

theorem toDigitsCore_ne_nil (b f n : Nat) (ds : List Char) (h : ds ≠ []) :
    Nat.toDigitsCore b f n ds ≠ [] := by
  induction f generalizing n ds with
  | zero => simpa [Nat.toDigitsCore] using h
  | succ f ih =>
    simp only [Nat.toDigitsCore]
    split_ifs
    · simp
    · exact ih _ _ (by simp)

theorem toDigits_ne_nil (b n : Nat) : Nat.toDigits b n ≠ [] := by
  simp only [Nat.toDigits, Nat.toDigitsCore]
  split_ifs
  · simp
  · exact toDigitsCore_ne_nil _ _ _ _ (by simp)

/-- The conversion `%d` never prints an empty string. -/
theorem printf_d_ne_nil (i : Int) : printf_d i ≠ [] := by
  unfold printf_d
  split_ifs
  · simp
  · exact toDigits_ne_nil _ _

theorem printf_d_natCast (n : Nat) : printf_d (n : Int) = Nat.toDigits 10 n := by
  unfold printf_d
  have : ¬ ((n : Int) < 0) := by omega
  simp [this]

/-! ## `g_strsplit` on a single space, limited to two tokens -/

theorem strstr_space_none (s : CString) (h : ' ' ∉ s) : strstr [' '] s = none := by
  induction s with
  | nil => simp [strstr, List.isPrefixOf]
  | cons c t ih =>
    simp only [List.mem_cons, not_or] at h
    simp [strstr, List.isPrefixOf, h.1, ih h.2]

theorem strstr_space_first (A B : CString) (h : ' ' ∉ A) :
    strstr [' '] (A ++ ' ' :: B) = some (A, ' ' :: B) := by
  induction A with
  | nil => simp [strstr, List.isPrefixOf]
  | cons c t ih =>
    simp only [List.mem_cons, not_or] at h
    simp [strstr, List.isPrefixOf, h.1, ih h.2]

/-- A string without a space is not split: it is the only token, and the
empty string gives no token. -/
theorem g_strsplit_no_space (s : CString) (h : ' ' ∉ s) :
    g_strsplit s [' '] 2 = if s ≠ [] then [s] else [] := by
  simp [g_strsplit, g_strsplit_loop, strstr_space_none s h]

/-- A string is cut at its first space into exactly two tokens: the text
before that space and everything after it. -/
theorem g_strsplit_first_space (A B : CString) (h : ' ' ∉ A) :
    g_strsplit (A ++ ' ' :: B) [' '] 2 = [A, B] := by
  simp [g_strsplit, g_strsplit_loop, strstr_space_first A B h]

/-- A string that contains a space has a first one. -/
theorem exists_first_space (s : CString) (h : ' ' ∈ s) :
    ∃ A B, ' ' ∉ A ∧ s = A ++ ' ' :: B := by
  induction s with
  | nil => simp at h
  | cons c t ih =>
    by_cases hc : c = ' '
    · exact ⟨[], t, by simp, by simp [hc]⟩
    · have ht : ' ' ∈ t := by
        rcases List.mem_cons.1 h with e | e
        · exact absurd e.symm hc
        · exact e
      obtain ⟨A, B, hA, hs⟩ := ih ht
      refine ⟨c :: A, B, ?_, by simp [hs]⟩
      simp only [List.mem_cons, not_or]
      exact ⟨fun e => hc e.symm, hA⟩

/-! ## `geoclue_gsmloc_get_cell`: the two outcomes -/

/-- When every gammu call succeeds the result is that of the normalisation of
the reported network information. -/
theorem get_cell_of_allOk (g : Gammu) (out : CellOut) (h : g.allOk) :
    (geoclue_gsmloc_get_cell g out).1 = (get_cell_normalize g.netinfo out).1 ∧
    (geoclue_gsmloc_get_cell g out).2.1 = (get_cell_normalize g.netinfo out).2 := by
  obtain ⟨h1, h2, h3, h4, h5⟩ := h
  simp [geoclue_gsmloc_get_cell, GSM_InitConnection, GSM_GetNetworkInfo, h1, h2, h3, h4, h5]

/-- When a gammu call fails the function fails and writes no output. -/
theorem get_cell_of_not_allOk (g : Gammu) (out : CellOut) (h : ¬ g.allOk) :
    (geoclue_gsmloc_get_cell g out).1 = false ∧ (geoclue_gsmloc_get_cell g out).2.1 = out := by
  unfold Gammu.allOk at h
  unfold geoclue_gsmloc_get_cell
  simp only [GSM_InitConnection, GSM_GetNetworkInfo]
  split_ifs <;> simp_all

theorem normalize_no_space (n : GSM_NetworkInfo) (out : CellOut) (h : ' ' ∉ n.NetworkCode) :
    get_cell_normalize n out = (false, out) := by
  unfold get_cell_normalize
  rw [g_strsplit_no_space _ h]
  by_cases e : n.NetworkCode = [] <;> simp [e]

theorem normalize_first_space (n : GSM_NetworkInfo) (out : CellOut) (A B : CString)
    (h : ' ' ∉ A) (e : n.NetworkCode = A ++ ' ' :: B) :
    get_cell_normalize n out
      = (true, { mcc := some A, mnc := some B, lac := some (printf_d (hex_to_int n.LAC)),
                 cid := some (printf_d (hex_to_int n.CID)) }) := by
  unfold get_cell_normalize
  rw [e, g_strsplit_first_space A B h]
  simp

/-- The function succeeds exactly when every gammu call succeeds and the
network code contains a space. -/
theorem get_cell_true_iff (g : Gammu) (out : CellOut) :
    (geoclue_gsmloc_get_cell g out).1 = true ↔ g.allOk ∧ ' ' ∈ g.netinfo.NetworkCode := by
  by_cases hok : g.allOk
  · rw [(get_cell_of_allOk g out hok).1]
    by_cases hs : ' ' ∈ g.netinfo.NetworkCode
    · obtain ⟨A, B, hA, e⟩ := exists_first_space _ hs
      simp [normalize_first_space g.netinfo out A B hA e, hok, hs]
    · simp [normalize_no_space g.netinfo out hs, hs]
  · simp [(get_cell_of_not_allOk g out hok).1, hok]

/-! ## Properties of the identifier normalisation -/

/-- C1 (amended): for a string of 1 to 8 hexadecimal digits that has at most
7 digits or, more generally, a base-16 value below `2^31`, the conversion
loop yields that value and `%d` prints its decimal string; the value is the
positional value of the digits in base 16. -/
theorem hex_conversion_decimal_of_value (s : CString) (h1 : 1 ≤ s.length) (h8 : s.length ≤ 8)
    (hx : s.all isHexDigit = true) (hv : s.length ≤ 7 ∨ spec_hexToDecimal s < 2 ^ 31) :
    hex_to_int s = (spec_hexToDecimal s : Int) ∧
    printf_d (hex_to_int s) = Nat.toDigits 10 (spec_hexToDecimal s) ∧
    spec_hexToDecimal s
      = Nat.ofDigits 16 (s.reverse.map fun c => (g_ascii_xdigit_value c).toNat) := by
  have hlt : spec_hexToDecimal s < 2 ^ 31 := by
    rcases hv with h7 | hv
    · exact spec_hexToDecimal_lt_of_length s hx h7
    · exact hv
  have e : hex_to_int s = (spec_hexToDecimal s : Int) := by
    rw [hex_to_int_eq s h8, hexIntValue_eq_spec s hx]
    apply wrap32_of_range <;> omega
  exact ⟨e, by rw [e, printf_d_natCast], spec_hexToDecimal_eq_ofDigits s⟩

/-- The strings `1A2B` and `3F` satisfy the hypotheses of C1 (amended); they
are printed as `6699` and `63`. -/
theorem hex_conversion_decimal_of_value_witness :
    (printf_d (hex_to_int "1A2B".toList) = "6699".toList ∧
      printf_d (hex_to_int "3F".toList) = "63".toList) ∧
    (hex_to_int "1A2B".toList = (spec_hexToDecimal "1A2B".toList : Int) ∧
      printf_d (hex_to_int "1A2B".toList) = Nat.toDigits 10 (spec_hexToDecimal "1A2B".toList) ∧
      spec_hexToDecimal "1A2B".toList
        = Nat.ofDigits 16
            ("1A2B".toList.reverse.map fun c => (g_ascii_xdigit_value c).toNat)) ∧
    (hex_to_int "3F".toList = (spec_hexToDecimal "3F".toList : Int) ∧
      printf_d (hex_to_int "3F".toList) = Nat.toDigits 10 (spec_hexToDecimal "3F".toList) ∧
      spec_hexToDecimal "3F".toList
        = Nat.ofDigits 16
            ("3F".toList.reverse.map fun c => (g_ascii_xdigit_value c).toNat)) :=
  ⟨by decide,
   hex_conversion_decimal_of_value "1A2B".toList (by decide) (by decide) (by decide)
     (Or.inl (by decide)),
   hex_conversion_decimal_of_value "3F".toList (by decide) (by decide) (by decide)
     (Or.inr (by decide))⟩

/-- C1 fails as stated: `FFFFFFFF` is a string of 8 hexadecimal digits, its
base-16 value is 4294967295, and the conversion prints `-1`. -/
theorem hex_conversion_eight_digits_counterexample :
    (1 ≤ "FFFFFFFF".toList.length ∧ "FFFFFFFF".toList.length ≤ 8 ∧
      "FFFFFFFF".toList.all isHexDigit = true) ∧
    spec_hexToDecimal "FFFFFFFF".toList = 4294967295 ∧
    printf_d (hex_to_int "FFFFFFFF".toList) = "-1".toList ∧
    printf_d (hex_to_int "FFFFFFFF".toList)
      ≠ Nat.toDigits 10 (spec_hexToDecimal "FFFFFFFF".toList) := by
  decide

/-- C2 (amended): the function does not validate LAC or CID. It succeeds
exactly when every modem call succeeds and the network code contains a
space, whatever LAC and CID are. When it succeeds, each of LAC and CID that
has at most 8 characters is returned as the decimal string of what the
conversion loop computes: the accumulated value, in which a character that
is no hexadecimal digit counts as the digit `-1`, reduced to a 32-bit `int`.
For the empty string that is `0`. -/
theorem get_cell_does_not_validate_hex (g : Gammu) (out : CellOut) :
    ((geoclue_gsmloc_get_cell g out).1 = true ↔ g.allOk ∧ ' ' ∈ g.netinfo.NetworkCode) ∧
    ((geoclue_gsmloc_get_cell g out).1 = true → g.netinfo.LAC.length ≤ 8 →
      (geoclue_gsmloc_get_cell g out).2.1.lac = some (printf_d (hex_to_int g.netinfo.LAC)) ∧
      hex_to_int g.netinfo.LAC = wrap32 (hexIntValue g.netinfo.LAC)) ∧
    ((geoclue_gsmloc_get_cell g out).1 = true → g.netinfo.CID.length ≤ 8 →
      (geoclue_gsmloc_get_cell g out).2.1.cid = some (printf_d (hex_to_int g.netinfo.CID)) ∧
      hex_to_int g.netinfo.CID = wrap32 (hexIntValue g.netinfo.CID)) ∧
    printf_d (hex_to_int []) = ['0'] := by
  have key : (geoclue_gsmloc_get_cell g out).1 = true →
      (geoclue_gsmloc_get_cell g out).2.1.lac = some (printf_d (hex_to_int g.netinfo.LAC)) ∧
      (geoclue_gsmloc_get_cell g out).2.1.cid = some (printf_d (hex_to_int g.netinfo.CID)) := by
    intro h
    obtain ⟨hok, hs⟩ := (get_cell_true_iff g out).1 h
    obtain ⟨A, B, hA, e⟩ := exists_first_space _ hs
    rw [(get_cell_of_allOk g out hok).2, normalize_first_space g.netinfo out A B hA e]
    exact ⟨rfl, rfl⟩
  exact ⟨get_cell_true_iff g out, fun h h8 => ⟨(key h).1, hex_to_int_eq _ h8⟩,
    fun h h8 => ⟨(key h).2, hex_to_int_eq _ h8⟩, by decide⟩

/-- C2 fails as stated: with an empty LAC and the CID `3G`, whose second
character is no hexadecimal digit, the function succeeds and returns the
numbers `0` and `47`. -/
theorem get_cell_malformed_hex_counterexample :
    (geoclue_gsmloc_get_cell
      (Gammu.reporting
        { NetworkCode := "246 81".toList, LAC := "".toList, CID := "3G".toList })
      CellOut.null).1 = true ∧
    (geoclue_gsmloc_get_cell
      (Gammu.reporting
        { NetworkCode := "246 81".toList, LAC := "".toList, CID := "3G".toList })
      CellOut.null).2.1
      = { mcc := some "246".toList, mnc := some "81".toList,
          lac := some "0".toList, cid := some "47".toList } := by
  decide

/-- C5: a network code `A ++ " " ++ B` with `A` and `B` non-empty and no space
in `A` is split into the two tokens `A` and `B`, and the function, when the
modem calls succeed, returns TRUE with `mcc = A` and `mnc = B`. -/
theorem get_cell_splits_network_code (A B : CString) (hA : A ≠ []) (hB : B ≠ [])
    (hsp : ' ' ∉ A) (g : Gammu) (out : CellOut) (hok : g.allOk)
    (hnc : g.netinfo.NetworkCode = A ++ ' ' :: B) :
    g_strsplit (A ++ ' ' :: B) [' '] 2 = [A, B] ∧
    (geoclue_gsmloc_get_cell g out).1 = true ∧
    (geoclue_gsmloc_get_cell g out).2.1.mcc = some A ∧
    (geoclue_gsmloc_get_cell g out).2.1.mnc = some B := by
  refine ⟨g_strsplit_first_space A B hsp, ?_⟩
  rw [(get_cell_of_allOk g out hok).1, (get_cell_of_allOk g out hok).2,
    normalize_first_space g.netinfo out A B hsp hnc]
  exact ⟨rfl, rfl, rfl⟩

/-- The network code `246 81` of the specification's scenario: C5 gives
`mcc = 246` and `mnc = 81`. -/
theorem get_cell_splits_network_code_witness :
    g_strsplit ("246".toList ++ ' ' :: "81".toList) [' '] 2 = ["246".toList, "81".toList] ∧
    (geoclue_gsmloc_get_cell
      (Gammu.reporting
        { NetworkCode := "246 81".toList, LAC := "1A2B".toList, CID := "3F".toList })
      CellOut.null).1 = true ∧
    (geoclue_gsmloc_get_cell
      (Gammu.reporting
        { NetworkCode := "246 81".toList, LAC := "1A2B".toList, CID := "3F".toList })
      CellOut.null).2.1.mcc = some "246".toList ∧
    (geoclue_gsmloc_get_cell
      (Gammu.reporting
        { NetworkCode := "246 81".toList, LAC := "1A2B".toList, CID := "3F".toList })
      CellOut.null).2.1.mnc = some "81".toList :=
  get_cell_splits_network_code "246".toList "81".toList (by decide) (by decide) (by decide)
    (Gammu.reporting
      { NetworkCode := "246 81".toList, LAC := "1A2B".toList, CID := "3F".toList })
    CellOut.null (by decide) (by decide)

/-- C6: a network code without a space (the empty one included) gives fewer
than two tokens, and the function returns FALSE and leaves its four outputs
as they were, for every outcome of the modem calls. -/
theorem get_cell_fails_without_space (g : Gammu) (out : CellOut)
    (h : ' ' ∉ g.netinfo.NetworkCode) :
    (g_strsplit g.netinfo.NetworkCode [' '] 2).length < 2 ∧
    (geoclue_gsmloc_get_cell g out).1 = false ∧
    (geoclue_gsmloc_get_cell g out).2.1 = out := by
  refine ⟨?_, ?_⟩
  · rw [g_strsplit_no_space _ h]
    by_cases e : g.netinfo.NetworkCode = [] <;> simp [e]
  · by_cases hok : g.allOk
    · rw [(get_cell_of_allOk g out hok).1, (get_cell_of_allOk g out hok).2,
        normalize_no_space g.netinfo out h]
      exact ⟨rfl, rfl⟩
    · exact get_cell_of_not_allOk g out hok

/-- The network code `24681` has no space: after successful modem calls the
function fails and the outputs are still `NULL`. -/
theorem get_cell_fails_without_space_witness :
    (g_strsplit "24681".toList [' '] 2).length < 2 ∧
    (geoclue_gsmloc_get_cell
      (Gammu.reporting
        { NetworkCode := "24681".toList, LAC := "1A2B".toList, CID := "3F".toList })
      CellOut.null).1 = false ∧
    (geoclue_gsmloc_get_cell
      (Gammu.reporting
        { NetworkCode := "24681".toList, LAC := "1A2B".toList, CID := "3F".toList })
      CellOut.null).2.1 = CellOut.null :=
  get_cell_fails_without_space
    (Gammu.reporting
      { NetworkCode := "24681".toList, LAC := "1A2B".toList, CID := "3F".toList })
    CellOut.null (by decide)

/-- C7 (amended): whenever the function succeeds, all four outputs are
strings (none is `NULL`), `lac` and `cid` are non-empty, `mcc` is the part of
the network code before its first space and `mnc` the part after it; these
two parts may be empty. -/
theorem get_cell_success_outputs (g : Gammu) (out : CellOut)
    (h : (geoclue_gsmloc_get_cell g out).1 = true) :
    ∃ mcc mnc lac cid : CString,
      (geoclue_gsmloc_get_cell g out).2.1
        = { mcc := some mcc, mnc := some mnc, lac := some lac, cid := some cid } ∧
      lac ≠ [] ∧ cid ≠ [] ∧ ' ' ∉ mcc ∧ g.netinfo.NetworkCode = mcc ++ ' ' :: mnc := by
  obtain ⟨hok, hs⟩ := (get_cell_true_iff g out).1 h
  obtain ⟨A, B, hA, e⟩ := exists_first_space _ hs
  refine ⟨A, B, printf_d (hex_to_int g.netinfo.LAC), printf_d (hex_to_int g.netinfo.CID),
    ?_, printf_d_ne_nil _, printf_d_ne_nil _, hA, e⟩
  rw [(get_cell_of_allOk g out hok).2, normalize_first_space g.netinfo out A B hA e]

/-- The scenario of the specification: network code `246 81`, LAC `1A2B`,
CID `3F`; the function succeeds, so C7 (amended) applies. -/
theorem get_cell_success_outputs_witness :
    ∃ mcc mnc lac cid : CString,
      (geoclue_gsmloc_get_cell
        (Gammu.reporting
          { NetworkCode := "246 81".toList, LAC := "1A2B".toList, CID := "3F".toList })
        CellOut.null).2.1
        = { mcc := some mcc, mnc := some mnc, lac := some lac, cid := some cid } ∧
      lac ≠ [] ∧ cid ≠ [] ∧ ' ' ∉ mcc ∧
      (Gammu.reporting
        { NetworkCode := "246 81".toList, LAC := "1A2B".toList,
          CID := "3F".toList }).netinfo.NetworkCode = mcc ++ ' ' :: mnc :=
  get_cell_success_outputs
    (Gammu.reporting
      { NetworkCode := "246 81".toList, LAC := "1A2B".toList, CID := "3F".toList })
    CellOut.null (by decide)

/-- C7 fails as stated: with the network code ` 81` the function succeeds and
returns an empty `mcc`; with `246 ` it succeeds and returns an empty `mnc`. -/
theorem get_cell_empty_token_counterexample :
    ((geoclue_gsmloc_get_cell
      (Gammu.reporting
        { NetworkCode := " 81".toList, LAC := "1A2B".toList, CID := "3F".toList })
      CellOut.null).1 = true ∧
     (geoclue_gsmloc_get_cell
      (Gammu.reporting
        { NetworkCode := " 81".toList, LAC := "1A2B".toList, CID := "3F".toList })
      CellOut.null).2.1.mcc = some []) ∧
    ((geoclue_gsmloc_get_cell
      (Gammu.reporting
        { NetworkCode := "246 ".toList, LAC := "1A2B".toList, CID := "3F".toList })
      CellOut.null).1 = true ∧
     (geoclue_gsmloc_get_cell
      (Gammu.reporting
        { NetworkCode := "246 ".toList, LAC := "1A2B".toList, CID := "3F".toList })
      CellOut.null).2.1.mnc = some []) := by
  decide

/-- C8 (amended): a network code `A ++ " " ++ B ++ " " ++ C` with no space in
`A` or `B` is split into `A` and `B ++ " " ++ C`: the function returns
`mcc = A` and `mnc = B ++ " " ++ C`, the whole text after the first space. -/
theorem get_cell_keeps_remainder (A B C : CString) (hA : ' ' ∉ A) (hB : ' ' ∉ B)
    (g : Gammu) (out : CellOut) (hok : g.allOk)
    (hnc : g.netinfo.NetworkCode = A ++ ' ' :: (B ++ ' ' :: C)) :
    g_strsplit (A ++ ' ' :: (B ++ ' ' :: C)) [' '] 2 = [A, B ++ ' ' :: C] ∧
    (geoclue_gsmloc_get_cell g out).1 = true ∧
    (geoclue_gsmloc_get_cell g out).2.1.mcc = some A ∧
    (geoclue_gsmloc_get_cell g out).2.1.mnc = some (B ++ ' ' :: C) := by
  refine ⟨g_strsplit_first_space A _ hA, ?_⟩
  rw [(get_cell_of_allOk g out hok).1, (get_cell_of_allOk g out hok).2,
    normalize_first_space g.netinfo out A _ hA hnc]
  exact ⟨rfl, rfl, rfl⟩

/-- The network code `246 81 7`: C8 (amended) gives `mcc = 246` and
`mnc = 81 7`. -/
theorem get_cell_keeps_remainder_witness :
    g_strsplit ("246".toList ++ ' ' :: ("81".toList ++ ' ' :: "7".toList)) [' '] 2
      = ["246".toList, "81".toList ++ ' ' :: "7".toList] ∧
    (geoclue_gsmloc_get_cell
      (Gammu.reporting
        { NetworkCode := "246 81 7".toList, LAC := "1A2B".toList, CID := "3F".toList })
      CellOut.null).1 = true ∧
    (geoclue_gsmloc_get_cell
      (Gammu.reporting
        { NetworkCode := "246 81 7".toList, LAC := "1A2B".toList, CID := "3F".toList })
      CellOut.null).2.1.mcc = some "246".toList ∧
    (geoclue_gsmloc_get_cell
      (Gammu.reporting
        { NetworkCode := "246 81 7".toList, LAC := "1A2B".toList, CID := "3F".toList })
      CellOut.null).2.1.mnc = some ("81".toList ++ ' ' :: "7".toList) :=
  get_cell_keeps_remainder "246".toList "81".toList "7".toList (by decide) (by decide)
    (Gammu.reporting
      { NetworkCode := "246 81 7".toList, LAC := "1A2B".toList, CID := "3F".toList })
    CellOut.null (by decide) (by decide)

/-- C8 fails as stated: the network code `246 81 7` is `A ++ " " ++ B ++ " " ++ C`
with `A = 246`, `B = 81`, `C = 7`, and the function returns `mnc = 81 7`, not
`81`. -/
theorem get_cell_third_token_counterexample :
    g_strsplit "246 81 7".toList [' '] 2 = ["246".toList, "81 7".toList] ∧
    (geoclue_gsmloc_get_cell
      (Gammu.reporting
        { NetworkCode := "246 81 7".toList, LAC := "1A2B".toList, CID := "3F".toList })
      CellOut.null).2.1.mnc = some "81 7".toList ∧
    (geoclue_gsmloc_get_cell
      (Gammu.reporting
        { NetworkCode := "246 81 7".toList, LAC := "1A2B".toList, CID := "3F".toList })
      CellOut.null).2.1.mnc ≠ some "81".toList := by
  decide

/-! ## Properties of `geoclue_gsmloc_get_position` -/

theorem get_position_of_cell_failure {D : Type} (g : Gammu) (ws : GcWebService D) (now : Int)
    (a : PositionArgs) (out : PositionOut D)
    (h : (geoclue_gsmloc_get_cell g CellOut.null).1 = false) :
    geoclue_gsmloc_get_position g ws now a out
      = (false, { out with error := some gammu_error }) := by
  simp [geoclue_gsmloc_get_position, h, gammu_error]

theorem get_position_of_cell_success {D : Type} (g : Gammu) (ws : GcWebService D) (now : Int)
    (a : PositionArgs) (out : PositionOut D)
    (h : (geoclue_gsmloc_get_cell g CellOut.null).1 = true) :
    geoclue_gsmloc_get_position g ws now a out
      = if (gc_web_service_query ws (geoclue_gsmloc_get_cell g CellOut.null).2.1).ok then
          (true, synthesize a (gc_web_service_query ws (geoclue_gsmloc_get_cell g CellOut.null).2.1)
            (before_query now a out))
        else
          (false, query_failure
            (gc_web_service_query ws (geoclue_gsmloc_get_cell g CellOut.null).2.1)
            (before_query now a out)) := by
  unfold geoclue_gsmloc_get_position before_query query_failure
  cases hts : a.timestamp <;>
    cases hq : (gc_web_service_query ws (geoclue_gsmloc_get_cell g CellOut.null).2.1).ok <;>
    simp [h, hts, hq]

/-- C3 (amended): the call returns FALSE exactly when
`geoclue_gsmloc_get_cell` fails or the web-service query fails. In the first
case (modem acquisition or network-code split) the error stored is always
`GEOCLUE_ERROR_NOT_AVAILABLE` with the message
`Failed to get cell data from Gammu`; in the second case the provider stores
no error of its own, and the caller sees the one `gc_web_service_query`
stored. -/
theorem get_position_failure_error {D : Type} (g : Gammu) (ws : GcWebService D) (now : Int)
    (a : PositionArgs) (out : PositionOut D) :
    ((geoclue_gsmloc_get_position g ws now a out).1 = false ↔
      (geoclue_gsmloc_get_cell g CellOut.null).1 = false ∨
      (gc_web_service_query ws (geoclue_gsmloc_get_cell g CellOut.null).2.1).ok = false) ∧
    ((geoclue_gsmloc_get_cell g CellOut.null).1 = false →
      (geoclue_gsmloc_get_position g ws now a out).1 = false ∧
      (geoclue_gsmloc_get_position g ws now a out).2.error
        = some (GError.mk GeoclueError.GEOCLUE_ERROR_NOT_AVAILABLE
            "Failed to get cell data from Gammu")) ∧
    ((geoclue_gsmloc_get_cell g CellOut.null).1 = true →
      (gc_web_service_query ws (geoclue_gsmloc_get_cell g CellOut.null).2.1).ok = false →
      (geoclue_gsmloc_get_position g ws now a out).1 = false ∧
      (geoclue_gsmloc_get_position g ws now a out).2.error
        = (gc_web_service_query ws (geoclue_gsmloc_get_cell g CellOut.null).2.1).error.orElse
            fun _ => out.error) := by
  cases hc : (geoclue_gsmloc_get_cell g CellOut.null).1
  · rw [get_position_of_cell_failure g ws now a out hc]
    simp [gammu_error]
  · rw [get_position_of_cell_success g ws now a out hc]
    cases hq : (gc_web_service_query ws (geoclue_gsmloc_get_cell g CellOut.null).2.1).ok
    · simp only [Bool.false_eq_true, if_false]
      simp [query_failure, before_query]
      cases a.timestamp <;> simp
    · simp

/-- C3 fails as stated: when no state machine can be allocated the message of
the error is `Failed to get cell data from Gammu`, not `cell data unavailable`;
and when the modem answers but the web service is unreachable the caller
receives the different error the web-service helper stored. -/
theorem get_position_error_message_counterexample :
    ((geoclue_gsmloc_get_position Gammu.noStateMachine ws_lat_only 0 PositionArgs.all
        PositionOut.blank).1 = false ∧
     (geoclue_gsmloc_get_position Gammu.noStateMachine ws_lat_only 0 PositionArgs.all
        PositionOut.blank).2.error
      = some (GError.mk GeoclueError.GEOCLUE_ERROR_NOT_AVAILABLE
          "Failed to get cell data from Gammu")) ∧
    ((geoclue_gsmloc_get_position (Gammu.reporting netinfo_246_81) ws_unreachable 0
        PositionArgs.all PositionOut.blank).1 = false ∧
     (geoclue_gsmloc_get_position (Gammu.reporting netinfo_246_81) ws_unreachable 0
        PositionArgs.all PositionOut.blank).2.error
      = some (GError.mk GeoclueError.GEOCLUE_ERROR_NOT_AVAILABLE
          "xmlNanoHTTPMethod did not get a response")) ∧
    (GError.mk GeoclueError.GEOCLUE_ERROR_NOT_AVAILABLE "Failed to get cell data from Gammu"
      ≠ GError.mk GeoclueError.GEOCLUE_ERROR_NOT_AVAILABLE "cell data unavailable") := by
  refine ⟨⟨by decide, by decide⟩, ⟨by decide, by decide⟩, by decide⟩

/-- C4, evaluated on the code: the response has the attribute `lat` with
value 45.0 and no longitude attribute, all output pointers are non-NULL. The
call succeeds with fields `LATITUDE | LONGITUDE`, the longitude output holds
45.0, copied from `lat`, and the accuracy level is POSTALCODE. -/
theorem get_position_longitude_reads_latitude :
    (gc_web_service_query ws_lat_only
        (geoclue_gsmloc_get_cell (Gammu.reporting netinfo_246_81) CellOut.null).2.1).get_double
      "/rsp/cell/attribute::lon" = none ∧
    (geoclue_gsmloc_get_position (Gammu.reporting netinfo_246_81) ws_lat_only 0
        PositionArgs.all PositionOut.blank).1 = true ∧
    (geoclue_gsmloc_get_position (Gammu.reporting netinfo_246_81) ws_lat_only 0
        PositionArgs.all PositionOut.blank).2.fields
      = GEOCLUE_POSITION_FIELDS_LATITUDE ||| GEOCLUE_POSITION_FIELDS_LONGITUDE ∧
    hasField (geoclue_gsmloc_get_position (Gammu.reporting netinfo_246_81) ws_lat_only 0
        PositionArgs.all PositionOut.blank).2.fields GEOCLUE_POSITION_FIELDS_LONGITUDE = true ∧
    (geoclue_gsmloc_get_position (Gammu.reporting netinfo_246_81) ws_lat_only 0
        PositionArgs.all PositionOut.blank).2.latitude = 45 ∧
    (geoclue_gsmloc_get_position (Gammu.reporting netinfo_246_81) ws_lat_only 0
        PositionArgs.all PositionOut.blank).2.longitude = 45 ∧
    (geoclue_gsmloc_get_position (Gammu.reporting netinfo_246_81) ws_lat_only 0
        PositionArgs.all PositionOut.blank).2.accuracy
      = some (geoclue_accuracy_new GeoclueAccuracyLevel.GEOCLUE_ACCURACY_LEVEL_POSTALCODE 0 0) := by
  refine ⟨by decide, by decide, by decide, by decide, by decide, by decide, by decide⟩

theorem synthesize_accuracy {D : Type} (a : PositionArgs) (r : WebResponse D)
    (out : PositionOut D) (ha : a.accuracy = true) :
    (synthesize a r out).accuracy
      = some (geoclue_accuracy_new
          (if (synthesize a r out).fields = GEOCLUE_POSITION_FIELDS_NONE
           then GeoclueAccuracyLevel.GEOCLUE_ACCURACY_LEVEL_NONE
           else GeoclueAccuracyLevel.GEOCLUE_ACCURACY_LEVEL_POSTALCODE) 0 0) := by
  unfold synthesize
  simp only [ha, if_true]
  split_ifs <;> simp_all

/-- On every successful run with a non-NULL accuracy output the accuracy
level is NONE exactly when the returned set of fields is empty and
POSTALCODE otherwise. -/
theorem get_position_accuracy_of_fields {D : Type} (g : Gammu) (ws : GcWebService D)
    (now : Int) (a : PositionArgs) (out : PositionOut D) (hacc : a.accuracy = true)
    (hok : (geoclue_gsmloc_get_position g ws now a out).1 = true) :
    ∃ level, (geoclue_gsmloc_get_position g ws now a out).2.accuracy
          = some (geoclue_accuracy_new level 0 0) ∧
        (level = GeoclueAccuracyLevel.GEOCLUE_ACCURACY_LEVEL_NONE ↔
          (geoclue_gsmloc_get_position g ws now a out).2.fields = GEOCLUE_POSITION_FIELDS_NONE) ∧
        ((geoclue_gsmloc_get_position g ws now a out).2.fields ≠ GEOCLUE_POSITION_FIELDS_NONE →
          level = GeoclueAccuracyLevel.GEOCLUE_ACCURACY_LEVEL_POSTALCODE) := by
  cases hc : (geoclue_gsmloc_get_cell g CellOut.null).1
  · rw [get_position_of_cell_failure g ws now a out hc] at hok
    simp at hok
  · rw [get_position_of_cell_success g ws now a out hc] at hok ⊢
    cases hq : (gc_web_service_query ws (geoclue_gsmloc_get_cell g CellOut.null).2.1).ok
    · simp [hq] at hok
    · simp only [if_true]
      have hl := synthesize_accuracy a
        (gc_web_service_query ws (geoclue_gsmloc_get_cell g CellOut.null).2.1)
        (before_query now a out) hacc
      rw [hl]
      split_ifs with hf
      · exact ⟨_, rfl, by simp [hf], fun h => absurd hf h⟩
      · exact ⟨_, rfl, by simp [hf], fun _ => rfl⟩

/-- C9, evaluated on the code. With a response that has the attribute `lon`
(13.0) and no `lat`, all output pointers non-NULL, the call succeeds with no
field set, the longitude output untouched and accuracy level NONE: the
LONGITUDE flag is not set although the longitude is there to extract. With
a response that has `lat` only, the LONGITUDE flag is set although there is
no longitude to extract. In both runs the accuracy level does follow the
returned fields. -/
theorem get_position_longitude_flag_follows_latitude :
    ((gc_web_service_query ws_lon_only
          (geoclue_gsmloc_get_cell (Gammu.reporting netinfo_246_81) CellOut.null).2.1).get_double
        "/rsp/cell/attribute::lon" = some 13 ∧
      (geoclue_gsmloc_get_position (Gammu.reporting netinfo_246_81) ws_lon_only 0
          PositionArgs.all PositionOut.blank).1 = true ∧
      hasField (geoclue_gsmloc_get_position (Gammu.reporting netinfo_246_81) ws_lon_only 0
          PositionArgs.all PositionOut.blank).2.fields GEOCLUE_POSITION_FIELDS_LONGITUDE = false ∧
      (geoclue_gsmloc_get_position (Gammu.reporting netinfo_246_81) ws_lon_only 0
          PositionArgs.all PositionOut.blank).2.fields = GEOCLUE_POSITION_FIELDS_NONE ∧
      (geoclue_gsmloc_get_position (Gammu.reporting netinfo_246_81) ws_lon_only 0
          PositionArgs.all PositionOut.blank).2.longitude = PositionOut.blank.longitude ∧
      (geoclue_gsmloc_get_position (Gammu.reporting netinfo_246_81) ws_lon_only 0
          PositionArgs.all PositionOut.blank).2.accuracy
        = some (geoclue_accuracy_new GeoclueAccuracyLevel.GEOCLUE_ACCURACY_LEVEL_NONE 0 0)) ∧
    ((gc_web_service_query ws_lat_only
          (geoclue_gsmloc_get_cell (Gammu.reporting netinfo_246_81) CellOut.null).2.1).get_double
        "/rsp/cell/attribute::lon" = none ∧
      (geoclue_gsmloc_get_position (Gammu.reporting netinfo_246_81) ws_lat_only 0
          PositionArgs.all PositionOut.blank).1 = true ∧
      hasField (geoclue_gsmloc_get_position (Gammu.reporting netinfo_246_81) ws_lat_only 0
          PositionArgs.all PositionOut.blank).2.fields GEOCLUE_POSITION_FIELDS_LATITUDE = true ∧
      hasField (geoclue_gsmloc_get_position (Gammu.reporting netinfo_246_81) ws_lat_only 0
          PositionArgs.all PositionOut.blank).2.fields GEOCLUE_POSITION_FIELDS_LONGITUDE = true) := by
  refine ⟨⟨by decide, by decide, by decide, by decide, by decide, by decide⟩,
    ⟨by decide, by decide, by decide, by decide⟩⟩

/-! ## The modem session -/

/-- The return value and the outputs do not depend on what
`GSM_TerminateConnection` returns. -/
theorem get_cell_result_ignores_terminate (g : Gammu) (out : CellOut) (e : GSM_Error) :
    (geoclue_gsmloc_get_cell { g with terminate := e } out).1
      = (geoclue_gsmloc_get_cell g out).1 ∧
    (geoclue_gsmloc_get_cell { g with terminate := e } out).2.1
      = (geoclue_gsmloc_get_cell g out).2.1 := by
  by_cases hok : g.allOk
  · have hok2 : Gammu.allOk { g with terminate := e } := hok
    rw [(get_cell_of_allOk g out hok).1, (get_cell_of_allOk g out hok).2,
      (get_cell_of_allOk _ out hok2).1, (get_cell_of_allOk _ out hok2).2]
    exact ⟨rfl, rfl⟩
  · have hok2 : ¬ Gammu.allOk { g with terminate := e } := hok
    rw [(get_cell_of_not_allOk g out hok).1, (get_cell_of_not_allOk g out hok).2,
      (get_cell_of_not_allOk _ out hok2).1, (get_cell_of_not_allOk _ out hok2).2]
    exact ⟨rfl, rfl⟩

/-- What the log and the final state of the connection look like, for every
outcome of the gammu calls. -/
theorem get_cell_modem_cases (g : Gammu) (out : CellOut) :
    (everConnected (geoclue_gsmloc_get_cell g out).2.2.log = true →
      GammuCall.InitConnection ∈ calls (geoclue_gsmloc_get_cell g out).2.2.log ∧
      (calls (geoclue_gsmloc_get_cell g out).2.2.log).count GammuCall.TerminateConnection = 1 ∧
      (calls (geoclue_gsmloc_get_cell g out).2.2.log).getLast?
        = some GammuCall.TerminateConnection) ∧
    ((geoclue_gsmloc_get_cell g out).2.2.opened = true →
      g.terminate ≠ ERR_NONE ∧ everConnected (geoclue_gsmloc_get_cell g out).2.2.log = true) := by
  unfold geoclue_gsmloc_get_cell terminate_if_connected GSM_TerminateConnection
    GSM_GetNetworkInfo GSM_IsConnected GSM_InitConnection Modem.call everConnected calls
  cases g.alloc <;> cases g.readConfig <;> cases g.initLeavesOpen <;>
    by_cases h1 : g.findGammuRC = ERR_NONE <;> by_cases h2 : g.initConnection = ERR_NONE <;>
    by_cases h3 : g.getNetworkInfo = ERR_NONE <;> by_cases h4 : g.terminate = ERR_NONE <;>
    simp [h1, h2, h3, h4]

/-- C10 (amended): for every outcome of the modem calls, if the modem is
connected at any point of a run, then `GSM_InitConnection` was called and
`GSM_TerminateConnection` is called exactly once, as the last modem call
before the function returns, whether the network-info query succeeded or
failed; a run returns while the modem is still connected only when that
`GSM_TerminateConnection` call failed; and what `GSM_TerminateConnection`
returns does not change the return value or the outputs. -/
theorem get_cell_terminates_connection (g : Gammu) (out : CellOut) :
    (everConnected (geoclue_gsmloc_get_cell g out).2.2.log = true →
      GammuCall.InitConnection ∈ calls (geoclue_gsmloc_get_cell g out).2.2.log ∧
      (calls (geoclue_gsmloc_get_cell g out).2.2.log).count GammuCall.TerminateConnection = 1 ∧
      (calls (geoclue_gsmloc_get_cell g out).2.2.log).getLast?
        = some GammuCall.TerminateConnection) ∧
    ((geoclue_gsmloc_get_cell g out).2.2.opened = true →
      g.terminate ≠ ERR_NONE ∧
      (calls (geoclue_gsmloc_get_cell g out).2.2.log).getLast?
        = some GammuCall.TerminateConnection) ∧
    (∀ e : GSM_Error,
      (geoclue_gsmloc_get_cell { g with terminate := e } out).1
        = (geoclue_gsmloc_get_cell g out).1 ∧
      (geoclue_gsmloc_get_cell { g with terminate := e } out).2.1
        = (geoclue_gsmloc_get_cell g out).2.1) := by
  obtain ⟨h1, h2⟩ := get_cell_modem_cases g out
  exact ⟨h1, fun h => ⟨(h2 h).1, (h1 (h2 h).2).2.2⟩,
    fun e => get_cell_result_ignores_terminate g out e⟩

/-- C10 fails as stated: when the modem answers and `GSM_TerminateConnection`
fails, the function returns TRUE, the last modem call is that
`GSM_TerminateConnection`, and the modem is still connected. -/
theorem get_cell_failed_disconnect_counterexample :
    (geoclue_gsmloc_get_cell Gammu.stuck CellOut.null).1 = true ∧
    calls (geoclue_gsmloc_get_cell Gammu.stuck CellOut.null).2.2.log
      = [GammuCall.AllocStateMachine, GammuCall.FindGammuRC, GammuCall.ReadConfig,
         GammuCall.SetConfigNum, GammuCall.InitConnection, GammuCall.GetNetworkInfo,
         GammuCall.TerminateConnection] ∧
    (geoclue_gsmloc_get_cell Gammu.stuck CellOut.null).2.2.opened = true := by
  decide

end Gsmloc
